import Mathlib

/-!
Shallow embedding of the webtunnel repository (packages `webtunnelclient`
and `webtunnelserver`) used to settle the frozen claims: the server's IP
address manager (`IPPam`), the server TUN-to-WebSocket router step, the
`/ws` endpoint's text-message handler, and the client's ARP/DHCP responder
and tap-side packet pump.

IPv4 addresses are naturals below 2^32; byte strings are `List Nat` with
entries below 256.  The Go code keys its allocation map by the dotted-quad
`String()` of an address, which is injective on 4-byte addresses, so the
map is keyed here by the numeric address.  The map itself is an
association list: Go map insert/update/delete become cons, pointwise map
and filter (keys are unique in every reachable state, so first-match
lookup coincides with Go's map semantics).
-/

namespace WebTunnel

/-- Builds the numeric address of the dotted quad a.b.c.d. -/
def ip4 (a b c d : Nat) : Nat := ((a * 256 + b) * 256 + c) * 256 + d

/-- Network mask of a prefix length, as in `net.CIDRMask(len, 32)`. -/
def maskOf (len : Nat) : Nat := 2 ^ 32 - 2 ^ (32 - len)

/-- Host-part bits of a prefix length: the complement `^mask` used by `lastAddr`. -/
def hostBits (len : Nat) : Nat := 2 ^ (32 - len) - 1

/-- CIDR prefix as parsed by `net.ParseCIDR`: the address part and the mask length. -/
structure Cidr where
  ip : Nat
  maskLen : Nat
deriving DecidableEq

/-- Status `ipStatusRequested` / `ipStatusInUse` from `webtunnelserver`. -/
inductive IpStatus
  | requested
  | inUse
deriving DecidableEq

/-- UserInfo of `webtunnelserver`: username, hostname and session start
(`time.Time` modelled as a natural timestamp). -/
structure UserInfo where
  username : String
  hostname : String
  sessionStart : Nat
deriving DecidableEq

/-- Value stored in the `any`-typed `data` field of `ipData`: Go `nil`
(the sentinels of `NewIPPam`), `struct{}{}` (the reserved gateway), or a
WebSocket connection identified by a number. -/
inductive ConnHandle
  | null
  | unitVal
  | conn (id : Nat)
deriving DecidableEq

/-- Allocation record `ipData` of `webtunnelserver`: status, the untyped
connection payload, and the optional user info pointer (`none` = Go `nil`). -/
structure IpData where
  ipStatus : IpStatus
  data : ConnHandle
  userinfo : Option UserInfo
deriving DecidableEq

/-- Association list standing for the Go map `map[string]*ipData`. -/
abbrev AllocMap := List (Nat × IpData)

/-- Map lookup `i.allocations[ip]` (first match). -/
def lookupIp : AllocMap → Nat → Option IpData
  | [], _ => none
  | e :: t, ip => if e.1 = ip then some e.2 else lookupIp t ip

/-- Map deletion `delete(i.allocations, ip)`. -/
def removeIp (m : AllocMap) (ip : Nat) : AllocMap :=
  m.filter (fun e => e.1 != ip)

/-- In-place update of the record stored at a key (mutation through the
`*ipData` pointer in Go); keys without an entry are unaffected. -/
def updateIp (m : AllocMap) (ip : Nat) (d : IpData) : AllocMap :=
  m.map (fun e => if e.1 = ip then (e.1, d) else e)

/-- IPPam state of `webtunnelserver`: the allocation map plus the parsed
prefix data (`ip`, mask length) and the computed network and broadcast
addresses. -/
structure IPPam where
  allocations : AllocMap
  ip : Nat
  maskLen : Nat
  net : Nat
  bcast : Nat
deriving DecidableEq

/-- NewIPPam: computes network and broadcast of the prefix and pre-inserts
both as `InUse` (broadcast first, then network, as in the source); their
`data` and `userinfo` fields are left nil. -/
def NewIPPam (c : Cidr) : IPPam :=
  let net := c.ip &&& maskOf c.maskLen
  let bcast := net ||| hostBits c.maskLen
  { allocations := [(bcast, ⟨.inUse, .null, none⟩), (net, ⟨.inUse, .null, none⟩)]
    ip := c.ip
    maskLen := c.maskLen
    net := net
    bcast := bcast }

/-- isValidIP: membership of the prefix, `i.ipnet.Contains(ip)`. -/
def isValidIP (s : IPPam) (ip : Nat) : Bool :=
  ip &&& maskOf s.maskLen == s.net

/-- Linear scan of `AcquireIP`: starting from `cur`, the first address with
no map entry, over at most `fuel` consecutive addresses.  The Go loop runs
`ip := i.ip.Mask(mask)`, then `inc(ip)` while `i.ipnet.Contains(ip)`, which
visits exactly the addresses from the network to the broadcast address;
the fuel at the call site is the size of that range. -/
def scanFree (m : AllocMap) : Nat → Nat → Option Nat
  | _, 0 => none
  | cur, fuel + 1 =>
      if (lookupIp m cur).isNone then some cur else scanFree m (cur + 1) fuel

/-- AcquireIP: first free address of the prefix range is inserted with
status `Requested` and the caller's data; when the whole range is
allocated the call fails with the exhaustion error. -/
def AcquireIP (s : IPPam) (d : ConnHandle) : Except String (Nat × IPPam) :=
  match scanFree s.allocations s.net (s.bcast + 1 - s.net) with
  | some ip =>
      .ok (ip, { s with allocations := (ip, ⟨.requested, d, none⟩) :: s.allocations })
  | none => .error "IPs exhausted"

/-- SetIPActiveWithUserInfo: fails when the IP has no entry; otherwise sets
the status to `InUse` and stores a fresh `UserInfo` (with `now` standing
for `time.Now()`), keeping the `data` field. -/
def SetIPActiveWithUserInfo (s : IPPam) (ip : Nat) (username hostname : String)
    (now : Nat) : Except String IPPam :=
  match lookupIp s.allocations ip with
  | none => .error "IP not available"
  | some v =>
      let d : IpData := ⟨.inUse, v.data, some ⟨username, hostname, now⟩⟩
      .ok { s with allocations := updateIp s.allocations ip d }

/-- GetData: returns the stored payload only for an entry whose status is
`InUse`; absent entries and entries still `Requested` fail. -/
def GetData (s : IPPam) (ip : Nat) : Except String ConnHandle :=
  match lookupIp s.allocations ip with
  | none => .error "IP not allocated"
  | some v =>
      if v.ipStatus ≠ IpStatus.inUse then .error "IP not marked in use"
      else .ok v.data

/-- Outcome of GetUserinfo.  `nilDeref` marks the execution that Go
performs as `*i.allocations[ip].userinfo` with a nil `userinfo` pointer:
a nil-pointer dereference (runtime panic), not an error return. -/
inductive UserinfoResult
  | ok (u : UserInfo)
  | err (msg : String)
  | nilDeref
deriving DecidableEq

/-- GetUserinfo: the guarded error branch fires for absent entries and for
entries not `InUse`; otherwise the `userinfo` pointer is dereferenced
unconditionally, which panics when it is nil. -/
def GetUserinfo (s : IPPam) (ip : Nat) : UserinfoResult :=
  match lookupIp s.allocations ip with
  | none => .err "IP not available or not marked in use"
  | some v =>
      if v.ipStatus ≠ IpStatus.inUse then .err "IP not available or not marked in use"
      else
        match v.userinfo with
        | some u => .ok u
        | none => .nilDeref

/-- ReleaseIP: refuses the network and broadcast addresses, then fails on
absent entries, otherwise deletes the entry. -/
def ReleaseIP (s : IPPam) (ip : Nat) : Except String IPPam :=
  if s.net = ip ∨ s.bcast = ip then .error "cannot release network or broadcast address"
  else
    match lookupIp s.allocations ip with
    | none => .error "IP not allocated"
    | some _ => .ok { s with allocations := removeIp s.allocations ip }

/-- AcquireSpecificIP: validates membership of the prefix, fails when the
IP already has an entry, otherwise inserts it with status `InUse` and the
given data (`userinfo` stays nil). -/
def AcquireSpecificIP (s : IPPam) (ip : Nat) (d : ConnHandle) : Except String IPPam :=
  if !isValidIP s ip then .error "not a valid IP"
  else
    match lookupIp s.allocations ip with
    | some _ => .error "IP already in use"
    | none => .ok { s with allocations := (ip, ⟨.inUse, d, none⟩) :: s.allocations }

/-- Destination address of a buffer parsed as an Nat packet: bytes 16-19
of the header (gopacket's `ip.DstIP`); `none` when the buffer is too short
to carry an Nat header, in which case gopacket yields no Nat layer. -/
def dstOfIPv4 (buf : List Nat) : Option Nat :=
  if 20 ≤ buf.length then
    some (((buf.getD 16 0 * 256 + buf.getD 17 0) * 256 + buf.getD 18 0) * 256 + buf.getD 19 0)
  else none

/-- Result of one iteration of the server's `processTUNPacket` loop:
the packet is dropped with a warning, written as one binary WebSocket
frame on exactly one connection, or the goroutine panics (nil Nat layer,
or a `data` payload that is not a WebSocket connection). -/
inductive TUNStepResult
  | dropped
  | written (connId : Nat) (frame : List Nat)
  | panicked
deriving DecidableEq

/-- Models one iteration of `processTUNPacket`: read a buffer from the TUN
device, extract the Nat destination, look up its connection with
`GetData`, and on success write the buffer as a binary frame on that
connection; a `GetData` failure drops the packet. -/
def processTUNPacketStep (s : IPPam) (buf : List Nat) : TUNStepResult :=
  match dstOfIPv4 buf with
  | none => .panicked
  | some dst =>
      match GetData s dst with
      | .error _ => .dropped
      | .ok h =>
          match h with
          | .conn id => .written id buf
          | _ => .panicked

/-- ClientConfig of package `webtunnelcommon`.  Modelled from the spec:
the wire structure (section 3) whose declaration is not under `src/`; its
fields `Ip`, `GWIp`, `Netmask` (dotted-quad strings), `DNS` and
`RoutePrefix` (string lists) are exactly those the client and server code
read and write. -/
structure ClientConfig where
  Ip : String
  GWIp : String
  Netmask : String
  DNS : List String
  RoutePrefix : List String
deriving DecidableEq

/-- Reply built by `wsEndpoint` for the text message `getConfig`: a struct
literal setting only `Ip`, `RoutePrefix` and `GWIp`; the remaining fields
keep their Go zero values (empty string, nil slice). -/
def wsConfigReply (ip : String) (routePrefixList : List String) (gwIP : String) :
    ClientConfig :=
  { Ip := ip, GWIp := gwIP, Netmask := "", DNS := [], RoutePrefix := routePrefixList }

/-- Text-message branch of the `wsEndpoint` read loop: the payload
`getConfig` is answered with the JSON `ClientConfig` above; any other text
payload produces no reply. -/
def wsEndpointTextMessage (ip : String) (routePrefixList : List String) (gwIP : String)
    (message : String) : Option ClientConfig :=
  if message = "getConfig" then some (wsConfigReply ip routePrefixList gwIP) else none

/-- DHCP option codes of `gopacket/layers` used by the client. -/
def DHCPOptSubnetMask : Nat := 1

/-- Option code of the DNS server option. -/
def DHCPOptDNS : Nat := 6

/-- Option code of the address lease time option. -/
def DHCPOptLeaseTime : Nat := 51

/-- Option code of the DHCP message type option. -/
def DHCPOptMessageType : Nat := 53

/-- Option code of the server identifier option. -/
def DHCPOptServerID : Nat := 54

/-- Option code of the RFC 3442 classless static route option. -/
def DHCPOptClasslessStaticRoute : Nat := 121

/-- DHCP message type values of `gopacket/layers`. -/
def DHCPMsgTypeDiscover : Nat := 1

/-- Message type value of an OFFER. -/
def DHCPMsgTypeOffer : Nat := 2

/-- Message type value of a REQUEST. -/
def DHCPMsgTypeRequest : Nat := 3

/-- Message type value of an ACK. -/
def DHCPMsgTypeAck : Nat := 5

/-- Message type value of a RELEASE. -/
def DHCPMsgTypeRelease : Nat := 7

/-- DHCP option as carried in `layers.DHCPOptions`: a code and its data bytes. -/
structure DHCPOption where
  optType : Nat
  optData : List Nat
deriving DecidableEq

/-- Big-endian 4-byte encoding, `binary.BigEndian.PutUint32`. -/
def u32be (n : Nat) : List Nat :=
  [n / 2 ^ 24 % 256, n / 2 ^ 16 % 256, n / 2 ^ 8 % 256, n % 256]

/-- Client interface configuration (struct `Interface` of
`webtunnelclient`): addresses are 4-byte lists, routes are pairs of a
4-byte network address and a mask length, MACs are 6-byte lists. -/
structure ClientIfce where
  IP : List Nat
  GWIP : List Nat
  Netmask : List Nat
  DNS : List (List Nat)
  RoutePrefix : List (List Nat × Nat)
  localHWAddr : List Nat
  gwHWAddr : List Nat
  leaseTime : Nat
deriving DecidableEq

/-- Classless static route bytes built by `buildDHCPopts`: for each route,
the mask length, then the first `ceil(maskLen/8)` bytes of the network
address, then the 4 gateway bytes. -/
def routeBytes (gwip : List Nat) : List (List Nat × Nat) → List Nat
  | [] => []
  | (netaddr, mask) :: t =>
      let b := mask / 8 + (if mask % 8 > 0 then 1 else 0)
      (mask :: (netaddr.take b ++ gwip)) ++ routeBytes gwip t

/-- buildDHCPopts: one DNS option per configured server, then subnet mask,
lease time (big-endian 32-bit), message type, server identifier, and the
classless static route option. -/
def buildDHCPopts (w : ClientIfce) (leaseT : Nat) (msgType : Nat) : List DHCPOption :=
  (w.DNS.map (fun s => ⟨DHCPOptDNS, s⟩)) ++
    [⟨DHCPOptSubnetMask, w.Netmask⟩,
     ⟨DHCPOptLeaseTime, u32be leaseT⟩,
     ⟨DHCPOptMessageType, [msgType]⟩,
     ⟨DHCPOptServerID, w.GWIP⟩,
     ⟨DHCPOptClasslessStaticRoute, routeBytes w.GWIP w.RoutePrefix⟩]

/-- Fields of an incoming DHCP request that `handleDHCP` reads: the
Ethernet source MAC, the mirrored Nat version and TTL, the UDP ports,
and the DHCP hardware length, transaction id and options. -/
structure DHCPRequest where
  ethSrcMAC : List Nat
  ipVersion : Nat
  ipTTL : Nat
  udpSrcPort : Nat
  udpDstPort : Nat
  hardwareLen : Nat
  xid : Nat
  options : List DHCPOption
deriving DecidableEq

/-- Message type extracted by the option loop of `handleDHCP`: the data
byte of the last `DHCPOptMessageType` option, zero when there is none. -/
def dhcpMsgTypeOf (opts : List DHCPOption) : Nat :=
  opts.foldl (fun acc o => if o.optType = DHCPOptMessageType then o.optData.headD 0 else acc) 0

/-- Reply frame serialized and written to the device by `handleDHCP`:
Ethernet, Nat and UDP envelope fields plus the DHCP layer fields. -/
structure DHCPReply where
  ethSrcMAC : List Nat
  ethDstMAC : List Nat
  ethType : Nat
  ipVersion : Nat
  ipTTL : Nat
  ipSrc : List Nat
  ipDst : List Nat
  ipProtocol : Nat
  udpSrcPort : Nat
  udpDstPort : Nat
  op : Nat
  hardwareType : Nat
  hardwareLen : Nat
  xid : Nat
  yiaddr : List Nat
  siaddr : List Nat
  chaddr : List Nat
  options : List DHCPOption
deriving DecidableEq

/-- handleDHCP: always builds and writes a BOOTREPLY addressed to the
broadcast MAC and IP; the options are the OFFER set for a DISCOVER, the
ACK set for a REQUEST, and empty for every other message type (including
RELEASE, which only logs a warning before the send). -/
def handleDHCP (w : ClientIfce) (req : DHCPRequest) : DHCPReply :=
  let msgType := dhcpMsgTypeOf req.options
  { ethSrcMAC := w.gwHWAddr
    ethDstMAC := [255, 255, 255, 255, 255, 255]
    ethType := 2048
    ipVersion := req.ipVersion
    ipTTL := req.ipTTL
    ipSrc := w.GWIP
    ipDst := [255, 255, 255, 255]
    ipProtocol := 17
    udpSrcPort := req.udpDstPort
    udpDstPort := req.udpSrcPort
    op := 2
    hardwareType := 1
    hardwareLen := req.hardwareLen
    xid := req.xid
    yiaddr := w.IP
    siaddr := w.GWIP
    chaddr := req.ethSrcMAC
    options :=
      if msgType = DHCPMsgTypeDiscover then buildDHCPopts w w.leaseTime DHCPMsgTypeOffer
      else if msgType = DHCPMsgTypeRequest then buildDHCPopts w w.leaseTime DHCPMsgTypeAck
      else [] }

/-- Fields of the gopacket ARP layer read and written by `handleArp`. -/
structure ArpPkt where
  addrType : Nat
  protocolType : Nat
  hwAddressSize : Nat
  protAddressSize : Nat
  operation : Nat
  sourceHwAddress : List Nat
  sourceProtAddress : List Nat
  dstHwAddress : List Nat
  dstProtAddress : List Nat
deriving DecidableEq

/-- ARP reply frame written to the device: the Ethernet envelope plus the
ARP layer. -/
structure ArpReply where
  ethSrcMAC : List Nat
  ethDstMAC : List Nat
  ethType : Nat
  arp : ArpPkt
deriving DecidableEq

/-- handleArp: a non-request is ignored; a request is answered with the
synthetic gateway MAC as sender, the requested protocol address as sender
protocol address, and the requester as target, inside an Ethernet frame
from the gateway MAC to the requester's source MAC. -/
def handleArp (w : ClientIfce) (ethSrc : List Nat) (a : ArpPkt) : Option ArpReply :=
  if a.operation ≠ 1 then none
  else
    some
      { ethSrcMAC := w.gwHWAddr
        ethDstMAC := ethSrc
        ethType := 2054
        arp :=
          { addrType := a.addrType
            protocolType := a.protocolType
            hwAddressSize := a.hwAddressSize
            protAddressSize := a.protAddressSize
            operation := 2
            sourceHwAddress := w.gwHWAddr
            sourceProtAddress := a.dstProtAddress
            dstHwAddress := a.sourceHwAddress
            dstProtAddress := a.sourceProtAddress } }

/-- Nat view of a tap frame's payload as gopacket decodes it: the
destination address, the raw bytes of the whole Nat packet (the Ethernet
layer payload) and, when the packet decodes further as DHCPv4, the parsed
request. -/
structure IPv4Pkt where
  dst : List Nat
  rawBytes : List Nat
  dhcp : Option DHCPRequest
deriving DecidableEq

/-- Decoded payload of an Ethernet frame read from the tap device. -/
inductive ParsedEthPayload
  | arp (a : ArpPkt)
  | ipv4 (p : IPv4Pkt)
  | other
deriving DecidableEq

/-- Ethernet frame read from the tap device, in decoded form. -/
structure EthFrame where
  srcMAC : List Nat
  dstMAC : List Nat
  payload : ParsedEthPayload
deriving DecidableEq

/-- net.IP.IsMulticast for a 4-byte address: first octet in 224-239. -/
def isMulticastIPv4 (ip : List Nat) : Bool :=
  224 ≤ ip.headD 0 && ip.headD 0 ≤ 239

/-- Action taken by one iteration of the client pump on a tap frame:
nothing sent, a binary frame written to the WebSocket, or a reply frame
written to the tap device by the ARP or DHCP responder. -/
inductive PumpAction
  | dropFrame
  | wsWrite (payload : List Nat)
  | devWriteArp (reply : ArpReply)
  | devWriteDhcp (reply : DHCPReply)
deriving DecidableEq

/-- Models the TAP branch of one `processNetPacket` iteration: an ARP
layer goes to `handleArp`, a DHCPv4 layer to `handleDHCP` (both write to
the device, never to the WebSocket), a non-Nat or multicast-destination
Nat frame is dropped, and a unicast Nat frame is forwarded to the
WebSocket with the Ethernet header stripped. -/
def processNetPacketTAP (w : ClientIfce) (f : EthFrame) : PumpAction :=
  match f.payload with
  | .arp a =>
      match handleArp w f.srcMAC a with
      | some r => .devWriteArp r
      | none => .dropFrame
  | .ipv4 p =>
      match p.dhcp with
      | some req => .devWriteDhcp (handleDHCP w req)
      | none => if isMulticastIPv4 p.dst then .dropFrame else .wsWrite p.rawBytes
  | .other => .dropFrame

/-- WebSocket payload sent by a pump action, `none` when nothing is sent
to the WebSocket. -/
def wsOutput : PumpAction → Option (List Nat)
  | .wsWrite payload => some payload
  | _ => none

/-- Device frame written by a pump action, `none` when nothing is written
to the tap device. -/
def devWritesFrame : PumpAction → Bool
  | .devWriteArp _ => true
  | .devWriteDhcp _ => true
  | _ => false

/-! Helper lemmas on the allocation map and the allocation scan. -/

theorem lookupIp_cons (k : Nat) (d : IpData) (m : AllocMap) (j : Nat) :
    lookupIp ((k, d) :: m) j = if k = j then some d else lookupIp m j := rfl

theorem removeIp_cons (e : Nat × IpData) (t : AllocMap) (ip : Nat) :
    removeIp (e :: t) ip = if e.1 = ip then removeIp t ip else e :: removeIp t ip := by
  by_cases hk : e.1 = ip <;> simp [removeIp, List.filter_cons, hk]

theorem lookupIp_removeIp (m : AllocMap) (ip j : Nat) :
    lookupIp (removeIp m ip) j = if j = ip then none else lookupIp m j := by
  induction m with
  | nil => simp [removeIp, lookupIp]
  | cons e t ih =>
      rw [removeIp_cons]
      by_cases hk : e.1 = ip
      · rw [if_pos hk, ih]
        by_cases hj : j = ip
        · simp [hj]
        · have h1 : e.1 ≠ j := by rw [hk]; exact fun hh => hj hh.symm
          simp [lookupIp, hj, h1]
      · rw [if_neg hk]
        simp only [lookupIp]
        rw [ih]
        by_cases he : e.1 = j
        · have : j ≠ ip := fun hh => hk (he.trans hh)
          simp [he, this]
        · simp [he]

theorem lookupIp_updateIp (m : AllocMap) (ip j : Nat) (d : IpData) :
    lookupIp (updateIp m ip d) j =
      if j = ip then (lookupIp m ip).map (fun _ => d) else lookupIp m j := by
  induction m with
  | nil => simp [updateIp, lookupIp]
  | cons e t ih =>
      simp only [updateIp, List.map_cons] at *
      by_cases hk : e.1 = ip
      · rw [if_pos hk]
        simp only [lookupIp]
        rw [ih]
        by_cases hj : j = ip
        · have h1 : e.1 = j := hk.trans hj.symm
          simp [hk, h1, hj]
        · have h1 : e.1 ≠ j := by rw [hk]; exact fun hh => hj hh.symm
          have h2 : ip ≠ j := fun hh => hj hh.symm
          simp [hk, h1, hj, h2]
      · rw [if_neg hk]
        simp only [lookupIp]
        rw [ih]
        by_cases he : e.1 = j
        · have : j ≠ ip := fun hh => hk (he.trans hh)
          simp [he, this]
        · simp [he, hk]

theorem scanFree_some (m : AllocMap) (fuel : Nat) :
    ∀ cur ip, scanFree m cur fuel = some ip →
      cur ≤ ip ∧ ip < cur + fuel ∧ lookupIp m ip = none ∧
        ∀ j, cur ≤ j → j < ip → (lookupIp m j).isSome := by
  induction fuel with
  | zero => intro cur ip h; simp [scanFree] at h
  | succ n ih =>
      intro cur ip h
      cases hcur : lookupIp m cur with
      | none =>
          simp [scanFree, hcur] at h
          subst h
          exact ⟨le_refl _, by omega, hcur, fun j h1 h2 => absurd h1 (by omega)⟩
      | some v =>
          simp [scanFree, hcur] at h
          obtain ⟨h1, h2, h3, h4⟩ := ih (cur + 1) ip h
          refine ⟨by omega, by omega, h3, fun j hj1 hj2 => ?_⟩
          rcases Nat.eq_or_lt_of_le hj1 with he | hl
          · rw [← he, hcur]; rfl
          · exact h4 j (by omega) hj2

theorem scanFree_none (m : AllocMap) (fuel : Nat) :
    ∀ cur, scanFree m cur fuel = none →
      ∀ j, cur ≤ j → j < cur + fuel → (lookupIp m j).isSome := by
  induction fuel with
  | zero => intro cur _ j h1 h2; omega
  | succ n ih =>
      intro cur h j h1 h2
      cases hcur : lookupIp m cur with
      | none => simp [scanFree, hcur] at h
      | some v =>
          simp [scanFree, hcur] at h
          rcases Nat.eq_or_lt_of_le h1 with he | hl
          · rw [← he, hcur]; rfl
          · exact ih (cur + 1) h j (by omega) (by omega)

theorem scanFree_some_intro (m : AllocMap) (fuel : Nat) :
    ∀ cur ip, cur ≤ ip → ip < cur + fuel → lookupIp m ip = none →
      (∀ j, cur ≤ j → j < ip → (lookupIp m j).isSome) →
      scanFree m cur fuel = some ip := by
  induction fuel with
  | zero => intro cur ip h1 h2; omega
  | succ n ih =>
      intro cur ip h1 h2 h3 h4
      rcases Nat.eq_or_lt_of_le h1 with he | hl
      · subst he; simp [scanFree, h3]
      · have hcur := h4 cur (le_refl _) hl
        cases hc : lookupIp m cur with
        | none => rw [hc] at hcur; simp at hcur
        | some v =>
            simp [scanFree, hc]
            exact ih (cur + 1) ip (by omega) (by omega) h3
              (fun j hj1 hj2 => h4 j (by omega) hj2)

theorem scanFree_none_intro (m : AllocMap) (fuel : Nat) :
    ∀ cur, (∀ j, cur ≤ j → j < cur + fuel → (lookupIp m j).isSome) →
      scanFree m cur fuel = none := by
  induction fuel with
  | zero => intro cur _; simp [scanFree]
  | succ n ih =>
      intro cur h
      have hcur := h cur (le_refl _) (by omega)
      cases hc : lookupIp m cur with
      | none => rw [hc] at hcur; simp at hcur
      | some v =>
          simp [scanFree, hc]
          exact ih (cur + 1) (fun j h1 h2 => h j (by omega) (by omega))

/-! Concrete states used by the seed scenarios of the claims. -/

/-- Result state of an `Except`-returning IPAM operation, with a fallback
for the error case (never taken at the concrete call sites below). -/
def okState (r : Except String IPPam) (dflt : IPPam) : IPPam :=
  match r with
  | .ok s => s
  | .error _ => dflt

/-- Result of an `AcquireIP` call, state component, with a fallback. -/
def okAcquire (r : Except String (Nat × IPPam)) (dflt : IPPam) : IPPam :=
  match r with
  | .ok p => p.2
  | .error _ => dflt

/-- Seed scenario of claim C2: IPAM over 192.168.0.0/29, the gateway
192.168.0.1 reserved by `AcquireSpecificIP`, then `n` `AcquireIP` calls. -/
def pam29 : Nat → IPPam
  | 0 =>
      okState
        (AcquireSpecificIP (NewIPPam ⟨ip4 192 168 0 0, 29⟩) (ip4 192 168 0 1)
          ConnHandle.unitVal)
        (NewIPPam ⟨ip4 192 168 0 0, 29⟩)
  | n + 1 => okAcquire (AcquireIP (pam29 n) ConnHandle.unitVal) (pam29 n)

/-- Server IPAM over 10.0.0.0/24 as `NewWebTunnelServer` builds it: the
gateway 10.0.0.1 reserved with `struct{}{}` as data. -/
def srvGw : IPPam :=
  okState
    (AcquireSpecificIP (NewIPPam ⟨ip4 10 0 0 0, 24⟩) (ip4 10 0 0 1) ConnHandle.unitVal)
    (NewIPPam ⟨ip4 10 0 0 0, 24⟩)

/-- State after the first client's `/ws` upgrade: `AcquireIP` with its
connection, acquiring 10.0.0.2 with status `Requested`. -/
def srvReq1 : IPPam := okAcquire (AcquireIP srvGw (ConnHandle.conn 1)) srvGw

/-- State after the second client's `/ws` upgrade: `AcquireIP` with its
connection, acquiring 10.0.0.3 with status `Requested`. -/
def srvReq2 : IPPam := okAcquire (AcquireIP srvReq1 (ConnHandle.conn 2)) srvReq1

/-- State after both leases are additionally marked `InUse` through
`SetIPActiveWithUserInfo` (the call the connection loop never makes). -/
def srvActive : IPPam :=
  okState
    (SetIPActiveWithUserInfo
      (okState (SetIPActiveWithUserInfo srvReq2 (ip4 10 0 0 2) "u1" "h1" 7) srvReq2)
      (ip4 10 0 0 3) "u2" "h2" 8)
    srvReq2

/-- Minimal 20-byte IPv4 header with source 10.0.0.1 and destination 10.0.0.3. -/
def pkt3 : List Nat :=
  [69, 0, 0, 20, 0, 0, 0, 0, 64, 6, 0, 0, 10, 0, 0, 1, 10, 0, 0, 3]

/-- Minimal 20-byte IPv4 header with source 10.0.0.1 and destination 10.0.0.9. -/
def pkt9 : List Nat :=
  [69, 0, 0, 20, 0, 0, 0, 0, 64, 6, 0, 0, 10, 0, 0, 1, 10, 0, 0, 9]

/-- Client interface configuration of the DHCP seed scenario: ip 10.0.0.2,
gateway 10.0.0.1, mask 255.255.255.0, dns [8.8.8.8], lease 300 (the value
`configureInterface` hard-codes), route 172.16.0.1/32. -/
def cliIfce : ClientIfce :=
  { IP := [10, 0, 0, 2]
    GWIP := [10, 0, 0, 1]
    Netmask := [255, 255, 255, 0]
    DNS := [[8, 8, 8, 8]]
    RoutePrefix := [([172, 16, 0, 1], 32)]
    localHWAddr := [2, 0, 0, 0, 0, 2]
    gwHWAddr := [2, 0, 0, 0, 0, 170]
    leaseTime := 300 }

/-- DHCPDISCOVER with xid 0xAABBCCDD from client MAC 02:00:00:00:00:01. -/
def discoverReq : DHCPRequest :=
  { ethSrcMAC := [2, 0, 0, 0, 0, 1]
    ipVersion := 4
    ipTTL := 64
    udpSrcPort := 68
    udpDstPort := 67
    hardwareLen := 6
    xid := 2864434397
    options := [⟨DHCPOptMessageType, [DHCPMsgTypeDiscover]⟩] }

/-- DHCPREQUEST with the same transaction data. -/
def requestReq : DHCPRequest :=
  { discoverReq with options := [⟨DHCPOptMessageType, [DHCPMsgTypeRequest]⟩] }

/-- DHCPRELEASE with the same transaction data. -/
def releaseReq : DHCPRequest :=
  { discoverReq with options := [⟨DHCPOptMessageType, [DHCPMsgTypeRelease]⟩] }

/-- Tap frame carrying the DHCPRELEASE (gopacket decodes the Ethernet,
IPv4, UDP and DHCPv4 layers). -/
def releaseFrame : EthFrame :=
  { srcMAC := [2, 0, 0, 0, 0, 1]
    dstMAC := [255, 255, 255, 255, 255, 255]
    payload := .ipv4 { dst := [10, 0, 0, 1], rawBytes := [], dhcp := some releaseReq } }

/-- ARP request `who-has 10.0.0.5 tell 10.0.0.2` from MAC 02:00:00:00:00:01. -/
def arpReqPkt : ArpPkt :=
  { addrType := 1
    protocolType := 2048
    hwAddressSize := 6
    protAddressSize := 4
    operation := 1
    sourceHwAddress := [2, 0, 0, 0, 0, 1]
    sourceProtAddress := [10, 0, 0, 2]
    dstHwAddress := [0, 0, 0, 0, 0, 0]
    dstProtAddress := [10, 0, 0, 5] }

/-- Tap frame with an IPv4 payload whose destination 224.0.0.251 is
multicast (an mDNS packet). -/
def mcastFrame : EthFrame :=
  { srcMAC := [2, 0, 0, 0, 0, 2]
    dstMAC := [1, 0, 94, 0, 0, 251]
    payload := .ipv4 { dst := [224, 0, 0, 251],
                       rawBytes := [69, 0, 0, 20, 0, 0, 0, 0, 1, 17, 0, 0,
                                    10, 0, 0, 2, 224, 0, 0, 251],
                       dhcp := none } }

/-! Characterizations of `AcquireIP` derived from the scan lemmas. -/

theorem AcquireIP_ok (s : IPPam) (d : ConnHandle) (ip : Nat) (s' : IPPam)
    (h : AcquireIP s d = .ok (ip, s')) :
    lookupIp s.allocations ip = none ∧ s.net ≤ ip ∧ ip ≤ s.bcast ∧
      (∀ j, s.net ≤ j → j < ip → (lookupIp s.allocations j).isSome) ∧
      s' = { s with allocations :=
              (ip, ⟨.requested, d, none⟩) :: s.allocations } := by
  cases hs : scanFree s.allocations s.net (s.bcast + 1 - s.net) with
  | none => rw [AcquireIP, hs] at h; simp at h
  | some x =>
      rw [AcquireIP, hs] at h
      simp only [Except.ok.injEq, Prod.mk.injEq] at h
      obtain ⟨hx, hst⟩ := h
      subst hx
      obtain ⟨h1, h2, h3, h4⟩ := scanFree_some s.allocations _ s.net _ hs
      exact ⟨h3, h1, by omega, h4, hst.symm⟩

theorem AcquireIP_ok_intro (s : IPPam) (d : ConnHandle) (ip : Nat)
    (h1 : s.net ≤ ip) (h2 : ip ≤ s.bcast) (h3 : lookupIp s.allocations ip = none)
    (h4 : ∀ j, s.net ≤ j → j < ip → (lookupIp s.allocations j).isSome) :
    AcquireIP s d =
      .ok (ip, { s with allocations :=
                  (ip, ⟨.requested, d, none⟩) :: s.allocations }) := by
  have hs := scanFree_some_intro s.allocations (s.bcast + 1 - s.net) s.net ip
    h1 (by omega) h3 h4
  rw [AcquireIP, hs]

theorem AcquireIP_error_iff (s : IPPam) (d : ConnHandle) (e : String) :
    AcquireIP s d = .error e ↔
      (e = "IPs exhausted" ∧
        ∀ j, s.net ≤ j → j ≤ s.bcast → (lookupIp s.allocations j).isSome) := by
  constructor
  · intro h
    cases hs : scanFree s.allocations s.net (s.bcast + 1 - s.net) with
    | some x => rw [AcquireIP, hs] at h; simp at h
    | none =>
        rw [AcquireIP, hs] at h
        simp only [Except.error.injEq] at h
        exact ⟨h.symm, fun j hj1 hj2 =>
          scanFree_none s.allocations _ s.net hs j hj1 (by omega)⟩
  · rintro ⟨he, hall⟩
    subst he
    have hs : scanFree s.allocations s.net (s.bcast + 1 - s.net) = none :=
      scanFree_none_intro s.allocations _ s.net
        (fun j hj1 hj2 => hall j hj1 (by omega))
    rw [AcquireIP, hs]

/-- C2: `NewIPPam` pre-allocates exactly the network and broadcast
addresses of the prefix, both `InUse`; a successful `AcquireIP` returns a
free address of the range that is the lowest free one (so it is never the
network, broadcast or the reserved gateway, all of which hold entries) and
inserts it with status `Requested`; successive `AcquireIP` results are
strictly ascending; `AcquireIP` fails, with the exhaustion error, exactly
when every address of the range is allocated; and on 192.168.0.0/29 with
gateway 192.168.0.1 reserved the successive results are 192.168.0.2
through 192.168.0.6 and then the exhaustion error. -/
theorem ippam_allocation_order :
    (∀ (c : Cidr) (j : Nat) (v : IpData),
        lookupIp (NewIPPam c).allocations j = some v ↔
          ((j = (NewIPPam c).net ∨ j = (NewIPPam c).bcast) ∧
            v = ⟨IpStatus.inUse, ConnHandle.null, none⟩))
    ∧
    (∀ (s : IPPam) (d : ConnHandle) (ip : Nat) (s' : IPPam),
        AcquireIP s d = Except.ok (ip, s') →
          lookupIp s.allocations ip = none ∧ s.net ≤ ip ∧ ip ≤ s.bcast ∧
            (∀ j, s.net ≤ j → j < ip → (lookupIp s.allocations j).isSome) ∧
            s'.allocations =
              (ip, ⟨IpStatus.requested, d, none⟩) :: s.allocations)
    ∧
    (∀ (s : IPPam) (d d' : ConnHandle) (ip ip' : Nat) (s' s'' : IPPam),
        AcquireIP s d = Except.ok (ip, s') →
        AcquireIP s' d' = Except.ok (ip', s'') → ip < ip')
    ∧
    (∀ (s : IPPam) (d : ConnHandle) (e : String),
        AcquireIP s d = Except.error e ↔
          (e = "IPs exhausted" ∧
            ∀ j, s.net ≤ j → j ≤ s.bcast → (lookupIp s.allocations j).isSome))
    ∧
    ((AcquireIP (pam29 0) ConnHandle.unitVal).toOption.map Prod.fst =
        some (ip4 192 168 0 2) ∧
      (AcquireIP (pam29 1) ConnHandle.unitVal).toOption.map Prod.fst =
        some (ip4 192 168 0 3) ∧
      (AcquireIP (pam29 2) ConnHandle.unitVal).toOption.map Prod.fst =
        some (ip4 192 168 0 4) ∧
      (AcquireIP (pam29 3) ConnHandle.unitVal).toOption.map Prod.fst =
        some (ip4 192 168 0 5) ∧
      (AcquireIP (pam29 4) ConnHandle.unitVal).toOption.map Prod.fst =
        some (ip4 192 168 0 6) ∧
      AcquireIP (pam29 5) ConnHandle.unitVal = Except.error "IPs exhausted") := by
  refine ⟨?_, ?_, ?_, ?_, ?_⟩
  · intro c j v
    simp only [NewIPPam, lookupIp]
    by_cases hb : (c.ip &&& maskOf c.maskLen) ||| hostBits c.maskLen = j
    · subst hb
      simp [eq_comm]
    · by_cases hn : c.ip &&& maskOf c.maskLen = j
      · subst hn
        simp [eq_comm, hb]
      · have h1 : ¬j = c.ip &&& maskOf c.maskLen := fun hh => hn hh.symm
        have h2 : ¬j = (c.ip &&& maskOf c.maskLen) ||| hostBits c.maskLen :=
          fun hh => hb hh.symm
        simp [hb, hn, h1, h2]
  · intro s d ip s' h
    obtain ⟨f1, l1, u1, m1, e1⟩ := AcquireIP_ok s d ip s' h
    exact ⟨f1, l1, u1, m1, by rw [e1]⟩
  · intro s d d' ip ip' s' s'' h1 h2
    obtain ⟨f1, l1, u1, m1, e1⟩ := AcquireIP_ok s d ip s' h1
    obtain ⟨f2, l2, u2, m2, e2⟩ := AcquireIP_ok s' d' ip' s'' h2
    subst e1
    rw [lookupIp_cons] at f2
    by_cases hip : ip = ip'
    · rw [if_pos hip] at f2; simp at f2
    · rw [if_neg hip] at f2
      have l2' : s.net ≤ ip' := l2
      rcases Nat.lt_or_ge ip' ip with hlt | hge
      · have hm := m1 ip' l2' hlt
        rw [f2] at hm; simp at hm
      · omega
  · intro s d e
    exact AcquireIP_error_iff s d e
  · exact ⟨by decide, by decide, by decide, by decide, by decide, by rfl⟩

/-- Witness for C2: applying the second conjunct at the concrete /29 state
with the gateway reserved, the first acquisition is 192.168.0.2 — a free
address, in range, with every lower address of the range allocated. -/
theorem ippam_allocation_order_witness :
    lookupIp (pam29 0).allocations (ip4 192 168 0 2) = none ∧
      (pam29 0).net ≤ ip4 192 168 0 2 ∧ ip4 192 168 0 2 ≤ (pam29 0).bcast ∧
      (∀ j, (pam29 0).net ≤ j → j < ip4 192 168 0 2 →
        (lookupIp (pam29 0).allocations j).isSome) ∧
      (pam29 1).allocations =
        (ip4 192 168 0 2, ⟨IpStatus.requested, ConnHandle.unitVal, none⟩) ::
          (pam29 0).allocations :=
  ippam_allocation_order.2.1 (pam29 0) ConnHandle.unitVal (ip4 192 168 0 2)
    (pam29 1) (by rfl)

/-- C7: `ReleaseIP` on the network or broadcast address always fails (the
state is returned unmodified by the failing call); on any other allocated
IP it removes exactly that entry; and when the released IP is the lowest
free address of the range, the next `AcquireIP` returns it again. -/
theorem releaseip_roundtrip :
    (∀ (s : IPPam) (ip : Nat), s.net = ip ∨ s.bcast = ip →
        ReleaseIP s ip = Except.error "cannot release network or broadcast address")
    ∧
    (∀ (s : IPPam) (ip : Nat) (v : IpData),
        ¬(s.net = ip ∨ s.bcast = ip) → lookupIp s.allocations ip = some v →
          ∃ s', ReleaseIP s ip = Except.ok s' ∧
            lookupIp s'.allocations ip = none ∧
            (∀ j, j ≠ ip → lookupIp s'.allocations j = lookupIp s.allocations j) ∧
            s'.net = s.net ∧ s'.bcast = s.bcast)
    ∧
    (∀ (s s' : IPPam) (ip : Nat) (d : ConnHandle),
        ReleaseIP s ip = Except.ok s' →
        s.net ≤ ip → ip ≤ s.bcast →
        (∀ j, s.net ≤ j → j < ip → (lookupIp s.allocations j).isSome) →
        (AcquireIP s' d).toOption.map Prod.fst = some ip) := by
  refine ⟨?_, ?_, ?_⟩
  · intro s ip hg
    rw [ReleaseIP, if_pos hg]
  · intro s ip v hg hv
    refine ⟨{ s with allocations := removeIp s.allocations ip }, ?_, ?_, ?_, rfl, rfl⟩
    · rw [ReleaseIP, if_neg hg, hv]
    · show lookupIp (removeIp s.allocations ip) ip = none
      rw [lookupIp_removeIp]; simp
    · intro j hj
      show lookupIp (removeIp s.allocations ip) j = lookupIp s.allocations j
      rw [lookupIp_removeIp, if_neg hj]
  · intro s s' ip d h hl hu hmin
    rw [ReleaseIP] at h
    by_cases hg : s.net = ip ∨ s.bcast = ip
    · rw [if_pos hg] at h; simp at h
    · rw [if_neg hg] at h
      cases hv : lookupIp s.allocations ip with
      | none => rw [hv] at h; simp at h
      | some v =>
          rw [hv] at h
          simp only [Except.ok.injEq] at h
          subst h
          have key := AcquireIP_ok_intro
            { s with allocations := removeIp s.allocations ip } d ip hl hu
            (by show lookupIp (removeIp s.allocations ip) ip = none
                rw [lookupIp_removeIp]; simp)
            (by intro j hj1 hj2
                show (lookupIp (removeIp s.allocations ip) j).isSome
                rw [lookupIp_removeIp, if_neg (by omega : j ≠ ip)]
                exact hmin j hj1 hj2)
          rw [key]
          rfl

/-- Witness for C7: on the /29 state holding 192.168.0.2 and 192.168.0.3,
releasing the network address fails, and releasing 192.168.0.2 followed by
an acquisition yields 192.168.0.2 again. -/
theorem releaseip_roundtrip_witness :
    ReleaseIP (pam29 0) (ip4 192 168 0 0) =
        Except.error "cannot release network or broadcast address" ∧
      (AcquireIP (okState (ReleaseIP (pam29 2) (ip4 192 168 0 2)) (pam29 2))
          ConnHandle.unitVal).toOption.map Prod.fst = some (ip4 192 168 0 2) :=
  ⟨releaseip_roundtrip.1 (pam29 0) (ip4 192 168 0 0) (Or.inl (by decide)),
   releaseip_roundtrip.2.2 (pam29 2)
     (okState (ReleaseIP (pam29 2) (ip4 192 168 0 2)) (pam29 2))
     (ip4 192 168 0 2) ConnHandle.unitVal (by rfl) (by decide) (by decide)
     (fun j h1 h2 => by
        have h1' : 3232235520 ≤ j := h1
        have h2' : j < 3232235522 := h2
        have hj : j = 3232235520 ∨ j = 3232235521 := by omega
        rcases hj with hj | hj <;> subst hj <;> decide)⟩

/-- C10: `SetIPActiveWithUserInfo` fails exactly when the IP has no
allocation entry; for every existing entry — `Requested`, already `InUse`,
or a network/broadcast sentinel — it succeeds, sets the status to `InUse`
and overwrites any stored user info with the new username, hostname and
the fresh session start time, leaving every other entry untouched. -/
theorem setipactive_overwrites :
    (∀ (s : IPPam) (ip : Nat) (u hn : String) (now : Nat),
        lookupIp s.allocations ip = none →
          SetIPActiveWithUserInfo s ip u hn now = Except.error "IP not available")
    ∧
    (∀ (s : IPPam) (ip : Nat) (u hn : String) (now : Nat) (v : IpData),
        lookupIp s.allocations ip = some v →
          ∃ s', SetIPActiveWithUserInfo s ip u hn now = Except.ok s' ∧
            lookupIp s'.allocations ip =
              some ⟨IpStatus.inUse, v.data, some ⟨u, hn, now⟩⟩ ∧
            (∀ j, j ≠ ip → lookupIp s'.allocations j = lookupIp s.allocations j) ∧
            s'.net = s.net ∧ s'.bcast = s.bcast) := by
  constructor
  · intro s ip u hn now hv
    rw [SetIPActiveWithUserInfo, hv]
  · intro s ip u hn now v hv
    refine ⟨{ s with allocations := updateIp s.allocations ip ⟨IpStatus.inUse, v.data, some ⟨u, hn, now⟩⟩ }, by rw [SetIPActiveWithUserInfo, hv], ?_, ?_, rfl, rfl⟩
    · show lookupIp (updateIp s.allocations ip ⟨IpStatus.inUse, v.data, some ⟨u, hn, now⟩⟩) ip = some ⟨IpStatus.inUse, v.data, some ⟨u, hn, now⟩⟩
      rw [lookupIp_updateIp]
      simp [hv]
    · intro j hj
      show lookupIp (updateIp s.allocations ip ⟨IpStatus.inUse, v.data, some ⟨u, hn, now⟩⟩) j = lookupIp s.allocations j
      rw [lookupIp_updateIp, if_neg hj]

/-- Witness for C10: activating the already-`InUse` gateway entry of the
10.0.0.0/24 server state succeeds and overwrites its (absent) user info. -/
theorem setipactive_overwrites_witness :
    ∃ s', SetIPActiveWithUserInfo srvGw (ip4 10 0 0 1) "alice" "host1" 42 =
        Except.ok s' ∧
      lookupIp s'.allocations (ip4 10 0 0 1) =
        some ⟨IpStatus.inUse, ConnHandle.unitVal,
              some ⟨"alice", "host1", 42⟩⟩ ∧
      (∀ j, j ≠ ip4 10 0 0 1 →
        lookupIp s'.allocations j = lookupIp srvGw.allocations j) ∧
      s'.net = srvGw.net ∧ s'.bcast = srvGw.bcast :=
  setipactive_overwrites.2 srvGw (ip4 10 0 0 1) "alice" "host1" 42
    ⟨IpStatus.inUse, ConnHandle.unitVal, none⟩ (by rfl)

/-- C9: `GetUserinfo` takes its guarded error branch exactly for absent or
non-`InUse` entries; an entry that is `InUse` with no stored user info —
the network and broadcast sentinels of `NewIPPam`, or an IP reserved via
`AcquireSpecificIP` such as the gateway — reaches the unguarded
dereference of the nil `userinfo` pointer. -/
theorem getuserinfo_nil_deref :
    (∀ (s : IPPam) (ip : Nat) (v : IpData),
        lookupIp s.allocations ip = some v → v.ipStatus = IpStatus.inUse →
          v.userinfo = none → GetUserinfo s ip = UserinfoResult.nilDeref)
    ∧
    (∀ (s : IPPam) (ip : Nat),
        GetUserinfo s ip = UserinfoResult.err "IP not available or not marked in use" ↔
          (lookupIp s.allocations ip = none ∨
            ∃ v, lookupIp s.allocations ip = some v ∧ v.ipStatus ≠ IpStatus.inUse))
    ∧
    (GetUserinfo srvGw (ip4 10 0 0 0) = UserinfoResult.nilDeref ∧
      GetUserinfo srvGw (ip4 10 0 0 255) = UserinfoResult.nilDeref ∧
      GetUserinfo srvGw (ip4 10 0 0 1) = UserinfoResult.nilDeref) := by
  refine ⟨?_, ?_, by decide, by decide, by decide⟩
  · intro s ip v hv hst hui
    rw [GetUserinfo, hv]
    simp [hst, hui]
  · intro s ip
    cases hv : lookupIp s.allocations ip with
    | none => simp [GetUserinfo, hv]
    | some v =>
        by_cases hst : v.ipStatus = IpStatus.inUse
        · cases hui : v.userinfo with
          | some u => simp [GetUserinfo, hv, hst, hui]
          | none => simp [GetUserinfo, hv, hst, hui]
        · simp [GetUserinfo, hv, hst]

/-- Witness for C9: the reserved gateway entry of the 10.0.0.0/24 state is
`InUse` with nil user info, and `GetUserinfo` on it reaches the nil
dereference. -/
theorem getuserinfo_nil_deref_witness :
    GetUserinfo srvGw (ip4 10 0 0 1) = UserinfoResult.nilDeref :=
  getuserinfo_nil_deref.1 srvGw (ip4 10 0 0 1)
    ⟨IpStatus.inUse, ConnHandle.unitVal, none⟩ (by rfl) rfl rfl

/-- C1 (amended): an IPv4 packet read from the server TUN whose
destination holds an `InUse` lease carried by connection `cid` is written
as a binary frame, byte-for-byte the read buffer, on exactly that
connection; a packet whose destination has no lease — or only a
`Requested` lease, which is all the `/ws` handler itself ever creates — is
dropped.  In the seed scenario both leases must additionally be marked
active before the packet for 10.0.0.3 is delivered on the second client's
connection, and the packet for 10.0.0.9 is dropped. -/
theorem tun_router_delivery :
    (∀ (s : IPPam) (buf : List Nat) (dst cid : Nat) (ui : Option UserInfo),
        dstOfIPv4 buf = some dst →
        lookupIp s.allocations dst =
          some ⟨IpStatus.inUse, ConnHandle.conn cid, ui⟩ →
        processTUNPacketStep s buf = TUNStepResult.written cid buf)
    ∧
    (∀ (s : IPPam) (buf : List Nat) (dst : Nat),
        dstOfIPv4 buf = some dst →
        (lookupIp s.allocations dst = none ∨
          ∃ v, lookupIp s.allocations dst = some v ∧
            v.ipStatus = IpStatus.requested) →
        processTUNPacketStep s buf = TUNStepResult.dropped)
    ∧
    (processTUNPacketStep srvActive pkt3 = TUNStepResult.written 2 pkt3 ∧
      processTUNPacketStep srvActive pkt9 = TUNStepResult.dropped) := by
  refine ⟨?_, ?_, by decide, by decide⟩
  · intro s buf dst cid ui hd hv
    simp [processTUNPacketStep, hd, GetData, hv]
  · intro s buf dst hd hv
    rcases hv with hv | ⟨v, hv, hst⟩
    · simp [processTUNPacketStep, hd, GetData, hv]
    · simp [processTUNPacketStep, hd, GetData, hv, hst]

/-- Witness for C1: in the activated seed state the packet for 10.0.0.3 is
written on connection 2, and the packet for 10.0.0.9 (no lease) is
dropped. -/
theorem tun_router_delivery_witness :
    processTUNPacketStep srvActive pkt3 = TUNStepResult.written 2 pkt3 ∧
      processTUNPacketStep srvActive pkt9 = TUNStepResult.dropped :=
  ⟨tun_router_delivery.1 srvActive pkt3 (ip4 10 0 0 3) 2
      (some ⟨"u2", "h2", 8⟩) (by rfl) (by rfl),
    tun_router_delivery.2.1 srvActive pkt9 (ip4 10 0 0 9) (by rfl)
      (Or.inl (by rfl))⟩

/-- C1 counterexample: with 10.0.0.2 and 10.0.0.3 acquired exactly as the
`/ws` handler acquires them (`AcquireIP`, leaving status `Requested`), the
packet destined to 10.0.0.3 is dropped by the TUN router, not written on
the second client's connection. -/
theorem tun_router_requested_cex :
    processTUNPacketStep srvReq2 pkt3 = TUNStepResult.dropped ∧
      processTUNPacketStep srvReq2 pkt3 ≠ TUNStepResult.written 2 pkt3 := by
  exact ⟨by decide, by decide⟩

/-- C5 (amended): the reply to the text frame `getConfig` is the JSON
`ClientConfig` carrying the acquired IP, the configured gateway IP and the
server's additional route prefixes; the `Netmask` and `DNS` fields are not
populated and keep their zero values. -/
theorem wsconfig_reply_fields :
    ∀ (ip gwIP : String) (routes : List String),
      wsEndpointTextMessage ip routes gwIP "getConfig" =
        some { Ip := ip, GWIp := gwIP, Netmask := "", DNS := [],
               RoutePrefix := routes } := by
  intro ip gwIP routes
  rfl

/-- C5 counterexample: for a server configured with netmask 255.255.255.0
the `getConfig` reply carries an empty `Netmask`, not the netmask (the
server never stores a netmask to send). -/
theorem wsconfig_netmask_cex :
    wsEndpointTextMessage "10.0.0.2" ["172.16.0.1/32", "172.16.0.2/32"]
        "10.0.0.1" "getConfig" =
      some { Ip := "10.0.0.2", GWIp := "10.0.0.1", Netmask := "", DNS := [],
             RoutePrefix := ["172.16.0.1/32", "172.16.0.2/32"] } ∧
      ("" : String) ≠ "255.255.255.0" := by
  exact ⟨rfl, by decide⟩

/-- Spec's wording of the RFC 3442 classless static route encoding: for
each route, the prefix length, then the ceiling of prefix_len over 8
high-order network bytes, then the 4-byte gateway. -/
def specRouteBytes (gwip : List Nat) : List (List Nat × Nat) → List Nat
  | [] => []
  | (netaddr, mask) :: t =>
      (mask :: (netaddr.take ((mask + 7) / 8) ++ gwip)) ++ specRouteBytes gwip t

/-- C3: the reply to a DHCPDISCOVER (resp. DHCPREQUEST) is a BOOTREPLY
echoing the xid, with yiaddr the configured client IP, siaddr the gateway
IP and chaddr the request's Ethernet source MAC, whose options are, in
order, one DNS option per configured server, SubnetMask, LeaseTime as
32-bit big-endian seconds, MessageType OFFER (resp. ACK), ServerID the
gateway IP, then the classless static routes; the route encoding agrees
with the spec's ceiling formula, lease time 300 encodes as 00 00 01 2C,
and route 172.16.0.1/32 via 10.0.0.1 encodes as 20 AC 10 00 01 0A 00 00
01. -/
theorem dhcp_reply_format :
    (∀ (w : ClientIfce) (req : DHCPRequest),
        dhcpMsgTypeOf req.options = DHCPMsgTypeDiscover →
          handleDHCP w req =
            { ethSrcMAC := w.gwHWAddr, ethDstMAC := [255, 255, 255, 255, 255, 255],
              ethType := 2048, ipVersion := req.ipVersion, ipTTL := req.ipTTL,
              ipSrc := w.GWIP, ipDst := [255, 255, 255, 255], ipProtocol := 17,
              udpSrcPort := req.udpDstPort, udpDstPort := req.udpSrcPort,
              op := 2, hardwareType := 1, hardwareLen := req.hardwareLen,
              xid := req.xid, yiaddr := w.IP, siaddr := w.GWIP,
              chaddr := req.ethSrcMAC,
              options := w.DNS.map (fun s => ⟨DHCPOptDNS, s⟩) ++
                [⟨DHCPOptSubnetMask, w.Netmask⟩,
                 ⟨DHCPOptLeaseTime, u32be w.leaseTime⟩,
                 ⟨DHCPOptMessageType, [DHCPMsgTypeOffer]⟩,
                 ⟨DHCPOptServerID, w.GWIP⟩,
                 ⟨DHCPOptClasslessStaticRoute, routeBytes w.GWIP w.RoutePrefix⟩] })
    ∧
    (∀ (w : ClientIfce) (req : DHCPRequest),
        dhcpMsgTypeOf req.options = DHCPMsgTypeRequest →
          handleDHCP w req =
            { ethSrcMAC := w.gwHWAddr, ethDstMAC := [255, 255, 255, 255, 255, 255],
              ethType := 2048, ipVersion := req.ipVersion, ipTTL := req.ipTTL,
              ipSrc := w.GWIP, ipDst := [255, 255, 255, 255], ipProtocol := 17,
              udpSrcPort := req.udpDstPort, udpDstPort := req.udpSrcPort,
              op := 2, hardwareType := 1, hardwareLen := req.hardwareLen,
              xid := req.xid, yiaddr := w.IP, siaddr := w.GWIP,
              chaddr := req.ethSrcMAC,
              options := w.DNS.map (fun s => ⟨DHCPOptDNS, s⟩) ++
                [⟨DHCPOptSubnetMask, w.Netmask⟩,
                 ⟨DHCPOptLeaseTime, u32be w.leaseTime⟩,
                 ⟨DHCPOptMessageType, [DHCPMsgTypeAck]⟩,
                 ⟨DHCPOptServerID, w.GWIP⟩,
                 ⟨DHCPOptClasslessStaticRoute, routeBytes w.GWIP w.RoutePrefix⟩] })
    ∧
    (∀ (gwip : List Nat) (routes : List (List Nat × Nat)),
        routeBytes gwip routes = specRouteBytes gwip routes)
    ∧
    u32be 300 = [0, 0, 1, 44]
    ∧
    routeBytes [10, 0, 0, 1] [([172, 16, 0, 1], 32)] =
      [32, 172, 16, 0, 1, 10, 0, 0, 1] := by
  refine ⟨?_, ?_, ?_, by decide, by decide⟩
  · intro w req h
    simp [handleDHCP, h, buildDHCPopts, DHCPMsgTypeDiscover]
  · intro w req h
    simp [handleDHCP, h, buildDHCPopts, DHCPMsgTypeRequest, DHCPMsgTypeDiscover]
  · intro gwip routes
    induction routes with
    | nil => rfl
    | cons r t ih =>
        obtain ⟨na, mask⟩ := r
        have hb : mask / 8 + (if mask % 8 > 0 then 1 else 0) = (mask + 7) / 8 := by
          by_cases hm : mask % 8 > 0
          · rw [if_pos hm]; omega
          · rw [if_neg hm]; omega
        simp [routeBytes, specRouteBytes, ih, hb]

/-- Witness for C3: the OFFER and ACK built for the seed DISCOVER and
REQUEST (xid 0xAABBCCDD, client MAC 02:00:00:00:00:01, ip 10.0.0.2,
gateway 10.0.0.1, mask 255.255.255.0, dns 8.8.8.8, lease 300, route
172.16.0.1/32). -/
theorem dhcp_reply_format_witness :
    handleDHCP cliIfce discoverReq =
      { ethSrcMAC := [2, 0, 0, 0, 0, 170], ethDstMAC := [255, 255, 255, 255, 255, 255],
        ethType := 2048, ipVersion := 4, ipTTL := 64,
        ipSrc := [10, 0, 0, 1], ipDst := [255, 255, 255, 255], ipProtocol := 17,
        udpSrcPort := 67, udpDstPort := 68,
        op := 2, hardwareType := 1, hardwareLen := 6,
        xid := 2864434397, yiaddr := [10, 0, 0, 2], siaddr := [10, 0, 0, 1],
        chaddr := [2, 0, 0, 0, 0, 1],
        options := [⟨6, [8, 8, 8, 8]⟩, ⟨1, [255, 255, 255, 0]⟩,
          ⟨51, [0, 0, 1, 44]⟩, ⟨53, [2]⟩, ⟨54, [10, 0, 0, 1]⟩,
          ⟨121, [32, 172, 16, 0, 1, 10, 0, 0, 1]⟩] } ∧
    handleDHCP cliIfce requestReq =
      { ethSrcMAC := [2, 0, 0, 0, 0, 170], ethDstMAC := [255, 255, 255, 255, 255, 255],
        ethType := 2048, ipVersion := 4, ipTTL := 64,
        ipSrc := [10, 0, 0, 1], ipDst := [255, 255, 255, 255], ipProtocol := 17,
        udpSrcPort := 67, udpDstPort := 68,
        op := 2, hardwareType := 1, hardwareLen := 6,
        xid := 2864434397, yiaddr := [10, 0, 0, 2], siaddr := [10, 0, 0, 1],
        chaddr := [2, 0, 0, 0, 0, 1],
        options := [⟨6, [8, 8, 8, 8]⟩, ⟨1, [255, 255, 255, 0]⟩,
          ⟨51, [0, 0, 1, 44]⟩, ⟨53, [5]⟩, ⟨54, [10, 0, 0, 1]⟩,
          ⟨121, [32, 172, 16, 0, 1, 10, 0, 0, 1]⟩] } :=
  ⟨dhcp_reply_format.1 cliIfce discoverReq (by rfl),
   dhcp_reply_format.2.1 cliIfce requestReq (by rfl)⟩

/-- C4: an ARP request is answered with exactly one reply whose sender
hardware address is the synthetic gateway MAC, sender protocol address the
request's target protocol address, and target hardware/protocol addresses
the request's source ones, carried in an Ethernet frame from the gateway
MAC to the request's source MAC with types and sizes mirrored; a
non-request ARP packet produces no reply and no device write. -/
theorem arp_reply_format :
    (∀ (w : ClientIfce) (ethSrc : List Nat) (a : ArpPkt),
        a.operation = 1 →
          handleArp w ethSrc a = some
            { ethSrcMAC := w.gwHWAddr, ethDstMAC := ethSrc, ethType := 2054,
              arp := { addrType := a.addrType, protocolType := a.protocolType,
                       hwAddressSize := a.hwAddressSize,
                       protAddressSize := a.protAddressSize,
                       operation := 2, sourceHwAddress := w.gwHWAddr,
                       sourceProtAddress := a.dstProtAddress,
                       dstHwAddress := a.sourceHwAddress,
                       dstProtAddress := a.sourceProtAddress } })
    ∧
    (∀ (w : ClientIfce) (ethSrc : List Nat) (a : ArpPkt),
        a.operation ≠ 1 → handleArp w ethSrc a = none)
    ∧
    (∀ (w : ClientIfce) (f : EthFrame) (a : ArpPkt),
        f.payload = ParsedEthPayload.arp a → a.operation = 1 →
          ∃ r, processNetPacketTAP w f = PumpAction.devWriteArp r ∧
            handleArp w f.srcMAC a = some r)
    ∧
    (∀ (w : ClientIfce) (f : EthFrame) (a : ArpPkt),
        f.payload = ParsedEthPayload.arp a → a.operation ≠ 1 →
          processNetPacketTAP w f = PumpAction.dropFrame) := by
  refine ⟨?_, ?_, ?_, ?_⟩
  · intro w ethSrc a h
    simp [handleArp, h]
  · intro w ethSrc a h
    simp [handleArp, h]
  · intro w f a hp h
    refine ⟨{ ethSrcMAC := w.gwHWAddr, ethDstMAC := f.srcMAC, ethType := 2054, arp := { addrType := a.addrType, protocolType := a.protocolType, hwAddressSize := a.hwAddressSize, protAddressSize := a.protAddressSize, operation := 2, sourceHwAddress := w.gwHWAddr, sourceProtAddress := a.dstProtAddress, dstHwAddress := a.sourceHwAddress, dstProtAddress := a.sourceProtAddress } }, ?_, ?_⟩
    · simp [processNetPacketTAP, hp, handleArp, h]
    · simp [handleArp, h]
  · intro w f a hp h
    simp [processNetPacketTAP, hp, handleArp, h]

/-- Witness for C4: the reply to `who-has 10.0.0.5 tell 10.0.0.2` from MAC
02:00:00:00:00:01: sender 10.0.0.5 at the gateway MAC, target
02:00:00:00:00:01 / 10.0.0.2, Ethernet from the gateway MAC to the
requester. -/
theorem arp_reply_format_witness :
    handleArp cliIfce [2, 0, 0, 0, 0, 1] arpReqPkt = some
      { ethSrcMAC := [2, 0, 0, 0, 0, 170], ethDstMAC := [2, 0, 0, 0, 0, 1],
        ethType := 2054,
        arp := { addrType := 1, protocolType := 2048, hwAddressSize := 6,
                 protAddressSize := 4, operation := 2,
                 sourceHwAddress := [2, 0, 0, 0, 0, 170],
                 sourceProtAddress := [10, 0, 0, 5],
                 dstHwAddress := [2, 0, 0, 0, 0, 1],
                 dstProtAddress := [10, 0, 0, 2] } } :=
  arp_reply_format.1 cliIfce [2, 0, 0, 0, 0, 1] arpReqPkt (by rfl)

/-- C6: evaluating the responder at a DHCPRELEASE frame: the message is
answered anyway — the pump hands it to `handleDHCP`, which, after the
warning, still serializes and writes a BOOTREPLY frame (with empty
options) to the network device. -/
theorem dhcp_release_writes_frame :
    processNetPacketTAP cliIfce releaseFrame =
        PumpAction.devWriteDhcp (handleDHCP cliIfce releaseReq) ∧
      (handleDHCP cliIfce releaseReq).options = [] ∧
      devWritesFrame (processNetPacketTAP cliIfce releaseFrame) = true := by
  exact ⟨rfl, rfl, rfl⟩

/-- C8: a tap frame parsing as IPv4 with a multicast destination never
produces a WebSocket write, whether or not it also parses as DHCP (a DHCP
frame is answered on the device, not forwarded). -/
theorem multicast_not_forwarded :
    ∀ (w : ClientIfce) (f : EthFrame) (p : IPv4Pkt),
      f.payload = ParsedEthPayload.ipv4 p → isMulticastIPv4 p.dst = true →
      wsOutput (processNetPacketTAP w f) = none := by
  intro w f p hp hm
  cases hd : p.dhcp with
  | some req => simp [processNetPacketTAP, hp, hd, wsOutput]
  | none => simp [processNetPacketTAP, hp, hd, hm, wsOutput]

/-- Witness for C8: the mDNS frame for 224.0.0.251 is not forwarded. -/
theorem multicast_not_forwarded_witness :
    wsOutput (processNetPacketTAP cliIfce mcastFrame) = none :=
  multicast_not_forwarded cliIfce mcastFrame
    { dst := [224, 0, 0, 251],
      rawBytes := [69, 0, 0, 20, 0, 0, 0, 0, 1, 17, 0, 0,
                   10, 0, 0, 2, 224, 0, 0, 251],
      dhcp := none } (by rfl) (by rfl)

end WebTunnel
